import Mathlib

/-!
Shallow embedding of the CRAWLGPT core pipeline (boundary-aware chunking,
vector similarity index, retrieval orchestration, rate limiting, usage
metrics, state export/import), translated from the Python sources:
  src/core/DatabaseHandler.py   (VectorDatabase)
  src/core/LLMBasedCrawler.py   (Model: chunk_text, extract_content_from_url,
                                 import_state, export_current_state)
  src/utils/monitoring.py       (Metrics, RateLimiter, MetricsCollector)
  src/utils/content_validator.py (ContentValidator)

Texts are modelled as `List Char`, machine floats as `Rat` (no rounding:
all concrete inputs used below stay away from float-rounding-sensitive
comparisons), Python exceptions as `Option`/`Except` results.
-/

set_option maxHeartbeats 1000000

abbrev Text := List Char

/-! ### Python string helpers -/

/-- Python's default whitespace set for `str.strip()` (ASCII part). -/
def isPySpace (c : Char) : Bool :=
  c == ' ' || c == '\t' || c == '\n' || c == '\r' || c == '\x0b' || c == '\x0c'

/-- Python `s.strip()`: drop whitespace from both ends. -/
def pyStrip (l : Text) : Text :=
  ((l.dropWhile isPySpace).reverse.dropWhile isPySpace).reverse

/-- Does `pat` occur in `l` starting at position `i`? -/
def occursAt (pat l : Text) (i : Nat) : Bool :=
  pat.isPrefixOf (l.drop i)

/-- Python `l.rfind(pat)`: the largest start position of an occurrence of
`pat` in `l`, `none` when `pat` does not occur (Python returns -1). -/
def rfindIdx (pat l : Text) : Option Nat :=
  ((List.range (l.length + 1)).filter (fun i => occursAt pat l i)).getLast?

/-- Python `l[i]` with negative-index semantics: a negative `i` counts from
the end; out of range raises IndexError (modelled as `none`). -/
def pyGet {α : Type} (l : List α) (i : Int) : Option α :=
  if 0 ≤ i then l.get? i.toNat
  else if (-i).toNat ≤ l.length then l.get? (l.length - (-i).toNat)
  else none

/-! ### Chunker (`Model.chunk_text`, src/core/LLMBasedCrawler.py lines 80-127) -/

/-- The fenced code-block delimiter (three backticks). -/
def cbPat : Text := [Char.ofNat 96, Char.ofNat 96, Char.ofNat 96]

/-- The blank-line paragraph break. -/
def nlPat : Text := ['\n', '\n']

/-- The sentence-ending period+space. -/
def pdPat : Text := ['.', ' ']

/-- Python `pos > chunk_size * 0.3` (exact rational comparison). -/
def pastThirty (pos chunk_size : Nat) : Bool :=
  decide (3 * chunk_size < 10 * pos)

/-- The boundary-adjustment block of `chunk_text`: starting from
`end = start + chunk_size`, move the cut point using the source's
`if/elif` chain over the current window `chunk = text[start:end]`. -/
def cutEnd (chunk_size start : Nat) (chunk : Text) : Nat :=
  let cb := rfindIdx cbPat chunk
  if cb.isSome && pastThirty (cb.getD 0) chunk_size then
    start + cb.getD 0
  else if (rfindIdx nlPat chunk).isSome then
    let lb := (rfindIdx nlPat chunk).getD 0
    if pastThirty lb chunk_size then start + lb else start + chunk_size
  else if (rfindIdx pdPat chunk).isSome then
    let lp := (rfindIdx pdPat chunk).getD 0
    if pastThirty lp chunk_size then start + lp + 1 else start + chunk_size
  else start + chunk_size

/-- The `while start < text_length` loop of `chunk_text`. -/
def chunkLoop (text : Text) (chunk_size start : Nat) : List Text :=
  if h : start < text.length then
    if text.length ≤ start + chunk_size then
      [pyStrip (text.drop start)]
    else
      let chunk := (text.drop start).take chunk_size
      let e := cutEnd chunk_size start chunk
      let piece := pyStrip ((text.take e).drop start)
      let rest := chunkLoop text chunk_size (max (start + 1) e)
      if piece = [] then rest else piece :: rest
  else []
termination_by text.length - start
decreasing_by
  exact Nat.sub_lt_sub_left h
    (Nat.lt_of_lt_of_le (Nat.lt_succ_self start) (Nat.le_max_left _ _))

/-- `Model.chunk_text`.  Before the loop runs, the function constructs
`ProgressTracker(total_steps=len(text) // chunk_size + 1, ...)`: that
integer division raises `ZeroDivisionError` when `chunk_size = 0`
(modelled as `none`); the tracker is otherwise pure instrumentation. -/
def chunk_text (text : Text) (chunk_size : Nat) : Option (List Text) :=
  if chunk_size = 0 then none
  else some (chunkLoop text chunk_size 0)

/-! ### VectorDatabase (src/core/DatabaseHandler.py) -/

structure Record where
  text : Text
  summary : Text
  deriving DecidableEq

structure VectorDatabase where
  embVectors : List (List Rat)
  data : List Record
  deriving DecidableEq

/-- Squared L2 distance between two embedding vectors. -/
def sqDist (v w : List Rat) : Rat :=
  (List.zipWith (fun a b => (a - b) * (a - b)) v w).sum

/-- faiss `IndexFlatL2.search` on the stored vectors: indices of the `k`
nearest stored vectors by ascending squared L2 distance (ties broken by
insertion order), padded with `-1` when fewer than `k` vectors are stored. -/
def faissSearch (vecs : List (List Rat)) (q : List Rat) (k : Nat) : List Int :=
  let ds := vecs.map (fun v => sqDist v q)
  let le := fun (i j : Nat) =>
    decide (ds.getD i 0 < ds.getD j 0) || (decide (ds.getD i 0 = ds.getD j 0) && decide (i ≤ j))
  let order := (List.range vecs.length).mergeSort le
  ((order.take k).map Int.ofNat) ++ List.replicate (k - vecs.length) (-1)

/-- `VectorDatabase.add_data`: encodes every text, adds all embeddings to
the faiss index, then appends one `{text, summary}` record per `zip` pair. -/
def VectorDatabase.add_data (embedF : Text → List Rat) (db : VectorDatabase)
    (texts summaries : List Text) : VectorDatabase :=
  { embVectors := db.embVectors ++ texts.map embedF
    data := db.data ++ (List.zip texts summaries).map (fun p => ⟨p.1, p.2⟩) }

/-- The list comprehension `[self.data[i] for i in indices[0] if i < len(self.data)]`:
evaluated left to right, raising (`none`) on the first failing lookup. -/
def buildResults (data : List Record) : List Int → Option (List Record)
  | [] => some []
  | i :: is =>
    match pyGet data i with
    | none => none
    | some r =>
      match buildResults data is with
      | none => none
      | some rs => some (r :: rs)

/-- `VectorDatabase.search`: embed the query, run the faiss search, keep the
indices `i` with `i < len(data)` and look each up with Python indexing
(`none` models the IndexError escaping `search`). -/
def VectorDatabase.search (embedF : Text → List Rat) (db : VectorDatabase)
    (query : Text) (top_k : Nat) : Option (List Record) :=
  let qe := embedF query
  let idxs := faissSearch db.embVectors qe top_k
  let kept := idxs.filter (fun i => decide (i < (db.data.length : Int)))
  buildResults db.data kept

structure RecordDict where
  text : Text
  summary : Text
  embedding : List Rat
  deriving DecidableEq

/-- Modelled from the spec: `VectorDatabase.to_dict` is absent from src/
(only its callers in the UI layer appear); per spec §4.2 it is a lossless
structural serialization of every stored Record's text, summary and
embedding (embeddings serialized, not recomputed). -/
def VectorDatabase.to_dict (db : VectorDatabase) : List RecordDict :=
  (List.zip db.embVectors db.data).map (fun p => ⟨p.2.text, p.2.summary, p.1⟩)

/-- Modelled from the spec: `VectorDatabase.from_dict` is absent from src/
(only its callers appear); per spec §4.2 it reconstructs the stored records
and their embedding vectors from the serialized record list without
re-invoking the embedding provider. -/
def VectorDatabase.from_dict (d : List RecordDict) : VectorDatabase :=
  { embVectors := d.map (fun r => r.embedding)
    data := d.map (fun r => ⟨r.text, r.summary⟩) }

/-- Does a boundary of kind `pat` occur in the window past 30% of it? -/
def boundaryQualifies (pat chunk : Text) (chunk_size : Nat) : Bool :=
  match rfindIdx pat chunk with
  | some i => pastThirty i chunk_size
  | none => false

/-- The cut the spec sentence describes for one window: test the three
boundary kinds in priority order (code-block delimiter, blank-line break,
sentence period+space), cut at the first kind whose last occurrence lies
past 30% of the window, and cut at the raw `chunk_size` offset only when
none of the three qualifies.  This is the claimed behavior, written from
the spec's words, to be compared with `cutEnd` from the source. -/
def specCut (chunk_size start : Nat) (chunk : Text) : Nat :=
  if boundaryQualifies cbPat chunk chunk_size then
    start + (rfindIdx cbPat chunk).getD 0
  else if boundaryQualifies nlPat chunk chunk_size then
    start + (rfindIdx nlPat chunk).getD 0
  else if boundaryQualifies pdPat chunk chunk_size then
    start + (rfindIdx pdPat chunk).getD 0 + 1
  else start + chunk_size

/-- The amended description of the window cut: the code-block check falls
through when it fails, but the blank-line branch captures on mere presence
of a blank-line break — when the break is at or before the 30% mark the cut
is the raw `chunk_size` offset and the sentence boundary is never tested;
only when no blank-line break is present at all is the sentence-ending
period+space considered. -/
def amendedCut (chunk_size start : Nat) (chunk : Text) : Nat :=
  if boundaryQualifies cbPat chunk chunk_size then
    start + (rfindIdx cbPat chunk).getD 0
  else if (rfindIdx nlPat chunk).isSome then
    if boundaryQualifies nlPat chunk chunk_size then
      start + (rfindIdx nlPat chunk).getD 0
    else start + chunk_size
  else if boundaryQualifies pdPat chunk chunk_size then
    start + (rfindIdx pdPat chunk).getD 0 + 1
  else start + chunk_size

example : pyStrip [' ', 'a', ' '] = ['a'] := by decide

example : rfindIdx pdPat ['a', '.', ' ', 'b', '.', ' '] = some 4 := by decide

/-! ### Metrics (src/utils/monitoring.py lines 8-48, 106-132)

`failed_requests` and `total_tokens_used` are not fields of the Python
`Metrics` class: `MetricsCollector.record_request` attaches them dynamically
with `hasattr` guards.  They are modelled as `Option Nat`, `none` meaning
the attribute is absent. -/

structure Metrics where
  total_requests : Nat
  successful_requests : Nat
  average_response_time : Rat
  uptime : Rat
  start_time : Rat
  failed_requests : Option Nat
  total_tokens_used : Option Nat
  deriving DecidableEq

/-- `Metrics.__init__` with its four parameters; `start_time = time.time()`
is passed as `now`.  The dynamic attributes are absent on a fresh instance. -/
def Metrics.init (total_requests successful_requests : Nat)
    (average_response_time uptime now : Rat) : Metrics :=
  ⟨total_requests, successful_requests, average_response_time, uptime, now, none, none⟩

/-- The dictionary produced by `Metrics.to_dict` (exactly four keys). -/
structure MetricsDict where
  total_requests : Nat
  successful_requests : Nat
  average_response_time : Rat
  uptime : Rat
  deriving DecidableEq

/-- `Metrics.to_dict`, evaluated at wall-clock time `now`. -/
def Metrics.to_dict (m : Metrics) (now : Rat) : MetricsDict :=
  ⟨m.total_requests, m.successful_requests, m.average_response_time,
    m.uptime + (now - m.start_time)⟩

/-- `Metrics.from_dict`, creating a fresh instance at wall-clock time `now`. -/
def Metrics.from_dict (d : MetricsDict) (now : Rat) : Metrics :=
  Metrics.init d.total_requests d.successful_requests d.average_response_time d.uptime now

/-- `MetricsCollector.record_request`, acting on the collector's `Metrics`. -/
def record_request (m : Metrics) (success : Bool) (response_time : Rat)
    (tokens_used : Nat) : Metrics :=
  let m1 : Metrics := { m with total_requests := m.total_requests + 1 }
  let m2 : Metrics :=
    if success then { m1 with successful_requests := m1.successful_requests + 1 }
    else { m1 with failed_requests := some (m1.failed_requests.getD 0 + 1) }
  let m3 : Metrics := { m2 with average_response_time :=
    (m2.average_response_time * ((m2.total_requests - 1 : Nat) : Rat) + response_time)
      / ((m2.total_requests : Nat) : Rat) }
  { m3 with total_tokens_used := some (m3.total_tokens_used.getD 0 + tokens_used) }

/-! ### RateLimiter (src/utils/monitoring.py lines 50-88) -/

structure RateLimiter where
  requests_per_minute : Nat
  requests : List Rat
  deriving DecidableEq

/-- `RateLimiter.__init__`. -/
def RateLimiter.init (requests_per_minute : Nat) : RateLimiter :=
  ⟨requests_per_minute, []⟩

/-- `RateLimiter.can_proceed`, evaluated at wall-clock time `now`: pop
entries older than 60 seconds from the front, then admit (append `now`,
return true) iff the remaining queue is below the limit. -/
def RateLimiter.can_proceed (rl : RateLimiter) (now : Rat) : Bool × RateLimiter :=
  let q := rl.requests.dropWhile (fun t => decide (t < now - 60))
  if q.length < rl.requests_per_minute then
    (true, { rl with requests := q ++ [now] })
  else
    (false, { rl with requests := q })

/-- A sequence of `can_proceed` calls at the given wall-clock times,
collecting the returned booleans and the final limiter state. -/
def RateLimiter.runAll (rl : RateLimiter) : List Rat → List Bool × RateLimiter
  | [] => ([], rl)
  | t :: ts =>
    let r := rl.can_proceed t
    let rest := r.2.runAll ts
    (r.1 :: rest.1, rest.2)

/-! ### ContentValidator (src/utils/content_validator.py) -/

/-- The result of `urlparse`, as far as `is_valid_url` inspects it. -/
structure ParsedUrl where
  scheme : Text
  netloc : Text

/-- `ContentValidator.is_valid_url`: `all([result.scheme, result.netloc])`. -/
def is_valid_url (u : ParsedUrl) : Bool :=
  !u.scheme.isEmpty && !u.netloc.isEmpty

/-- A match of the case-insensitive regex `<script.*?>` exists somewhere in
`content`: an occurrence of `<script` followed by a `>` with no newline in
between (`.` does not match a newline). -/
def hasScriptTag (content : Text) : Bool :=
  (List.range (content.length + 1)).any (fun i =>
    occursAt (['<', 's', 'c', 'r', 'i', 'p', 't']) (content.map Char.toLower) i &&
    ((content.drop (i + 7)).takeWhile (fun c => c ≠ '\n')).any (fun c => c == '>'))

structure ValidationResult where
  valid : Bool
  reason : Text

/-- `ContentValidator.validate_content`. -/
def validate_content (content : Text) : ValidationResult :=
  if hasScriptTag content then ⟨false, "Contains script tags".toList⟩
  else if (pyStrip content).length < 10 then ⟨false, "Content too short".toList⟩
  else ⟨true, "Content passed validation".toList⟩

/-! ### The orchestrator (`Model`, src/core/LLMBasedCrawler.py)

External collaborators (the sentence-transformer embedder, the Groq
summarizer, the crawl4ai fetcher) enter as parameters: `embedF` and
`summarize` are the deterministic provider calls, `fetched` is the outcome
of `await crawler.arun(...)` (`none` = the crawl raised). -/

structure ModelState where
  context : Text
  database : VectorDatabase
  metrics : Metrics
  rate_limiter : RateLimiter
  deriving DecidableEq

/-- The `except` branch of `extract_content_from_url`: record a failed
metrics event (`tokens = 0`) and return `(False, error message)`. -/
def extractFail (rt : Rat) (msg : Text) (st : ModelState) :
    (Bool × Text) × ModelState :=
  ((false, msg), { st with metrics := record_request st.metrics false rt 0 })

/-- `Model.extract_content_from_url`, with `now` the wall-clock time seen by
the rate limiter and `rt` the response time recorded in the metrics. -/
def extract_content_from_url (embedF : Text → List Rat) (summarize : Text → Text)
    (url : ParsedUrl) (fetched : Option Text) (now rt : Rat)
    (st : ModelState) : (Bool × Text) × ModelState :=
  if !is_valid_url url then
    extractFail rt "Content extraction failed: Invalid URL format".toList st
  else
    let pr := st.rate_limiter.can_proceed now
    let st1 : ModelState := { st with rate_limiter := pr.2 }
    if !pr.1 then
      extractFail rt "Content extraction failed: Rate limit exceeded. Please try again later.".toList st1
    else
      match fetched with
      | none => extractFail rt "Content extraction failed: crawl error".toList st1
      | some md =>
        let st2 : ModelState := { st1 with context := md }
        let vr := validate_content st2.context
        if !vr.valid then
          extractFail rt ("Content extraction failed: Content validation failed: ".toList ++ vr.reason) st2
        else
          match chunk_text st2.context 5000 with
          | none =>
            extractFail rt "Content extraction failed: integer division or modulo by zero".toList st2
          | some chunks =>
            let summaries := chunks.map summarize
            let st3 : ModelState :=
              { st2 with database := st2.database.add_data embedF chunks summaries }
            let st4 : ModelState :=
              { st3 with metrics := record_request st3.metrics true rt st3.context.length }
            ((true, "Content extraction completed successfully".toList), st4)

/-- A state snapshot as `import_state` receives it: each top-level key may
be present or absent. -/
structure Snapshot where
  metrics : Option MetricsDict
  vector_database : Option (List RecordDict)

/-- `Model.import_state`: `state["metrics"]` is looked up and assigned
first; a missing key raises `KeyError` (modelled as `Except.error`), leaving
the mutations already performed in place. -/
def import_state (snap : Snapshot) (now : Rat) (st : ModelState) :
    Except Text Unit × ModelState :=
  match snap.metrics with
  | none => (Except.error "KeyError: metrics".toList, st)
  | some md =>
    let st1 : ModelState := { st with metrics := Metrics.from_dict md now }
    match snap.vector_database with
    | none => (Except.error "KeyError: vector_database".toList, st1)
    | some vd => (Except.ok (), { st1 with database := VectorDatabase.from_dict vd })

/-! ## Helper lemmas -/

theorem pyStrip_length_le (l : Text) : (pyStrip l).length ≤ l.length := by
  unfold pyStrip
  have h1 := (@List.dropWhile_sublist Char l isPySpace).length_le
  have h2 := (@List.dropWhile_sublist Char (l.dropWhile isPySpace).reverse isPySpace).length_le
  simp only [List.length_reverse] at *
  omega

theorem rfindIdx_mem {pat l : Text} {i : Nat} (h : rfindIdx pat l = some i) :
    i ≤ l.length ∧ occursAt pat l i = true := by
  unfold rfindIdx at h
  have hm : i ∈ (List.range (l.length + 1)).filter (fun j => occursAt pat l j) :=
    List.mem_of_mem_getLast? (by simp [h])
  rcases List.mem_filter.mp hm with ⟨hr, ho⟩
  exact ⟨Nat.lt_succ_iff.mp (List.mem_range.mp hr), ho⟩

theorem rfindIdx_bound {pat l : Text} {i : Nat} (h : rfindIdx pat l = some i) :
    i + pat.length ≤ l.length := by
  rcases rfindIdx_mem h with ⟨h1, h2⟩
  have h3 : pat <+: l.drop i := List.isPrefixOf_iff_prefix.mp h2
  have h4 := h3.length_le
  rw [List.length_drop] at h4
  omega

theorem cutEnd_le {chunk_size start : Nat} {chunk : Text}
    (hc : chunk.length ≤ chunk_size) :
    cutEnd chunk_size start chunk ≤ start + chunk_size := by
  have hcb : ∀ i, rfindIdx cbPat chunk = some i → i + 3 ≤ chunk.length := by
    intro i h
    have h2 := rfindIdx_bound h
    simpa [cbPat] using h2
  have hnl : ∀ i, rfindIdx nlPat chunk = some i → i + 2 ≤ chunk.length := by
    intro i h
    have h2 := rfindIdx_bound h
    simpa [nlPat] using h2
  have hpd : ∀ i, rfindIdx pdPat chunk = some i → i + 2 ≤ chunk.length := by
    intro i h
    have h2 := rfindIdx_bound h
    simpa [pdPat] using h2
  unfold cutEnd
  cases h1 : rfindIdx cbPat chunk <;> cases h2 : rfindIdx nlPat chunk <;>
      cases h3 : rfindIdx pdPat chunk <;>
      simp only [h1, h2, h3, Option.isSome_some, Option.isSome_none, Option.getD_some,
        Option.getD_none, Bool.false_and, Bool.true_and, Bool.false_eq_true, if_false] <;>
      (try split_ifs) <;>
      first
        | omega
        | (have hb := hcb _ h1; omega)
        | (have hb := hnl _ h2; omega)
        | (have hb := hpd _ h3; omega)

theorem chunkLoop_length_le (text : Text) (chunk_size : Nat) :
    ∀ n start, text.length - start ≤ n →
      ∀ c ∈ chunkLoop text chunk_size start, c.length ≤ chunk_size := by
  intro n
  induction n with
  | zero =>
    intro start hn c hc
    unfold chunkLoop at hc
    rw [dif_neg (by omega)] at hc
    exact absurd hc (List.not_mem_nil c)
  | succ n ih =>
    intro start hn c hc
    unfold chunkLoop at hc
    by_cases hs : start < text.length
    · rw [dif_pos hs] at hc
      by_cases hr : text.length ≤ start + chunk_size
      · rw [if_pos hr] at hc
        simp only [List.mem_singleton] at hc
        subst hc
        have h1 := pyStrip_length_le (text.drop start)
        rw [List.length_drop] at h1
        omega
      · rw [if_neg hr] at hc
        simp only at hc
        have hcl : ((text.drop start).take chunk_size).length ≤ chunk_size := by
          rw [List.length_take]; omega
        have hee := @cutEnd_le chunk_size start ((text.drop start).take chunk_size) hcl
        have hmax := Nat.le_max_left (start + 1) (cutEnd chunk_size start ((text.drop start).take chunk_size))
        have hrec : ∀ d ∈ chunkLoop text chunk_size
            (max (start + 1) (cutEnd chunk_size start ((text.drop start).take chunk_size))),
            d.length ≤ chunk_size := by
          intro d hd
          exact ih _ (by omega) d hd
        by_cases hp : pyStrip ((text.take (cutEnd chunk_size start ((text.drop start).take chunk_size))).drop start) = []
        · rw [if_pos hp] at hc
          exact hrec c hc
        · rw [if_neg hp] at hc
          rcases List.mem_cons.mp hc with h | h
          · subst h
            have h1 := pyStrip_length_le ((text.take (cutEnd chunk_size start ((text.drop start).take chunk_size))).drop start)
            have h2 : ((text.take (cutEnd chunk_size start ((text.drop start).take chunk_size))).drop start).length
                ≤ chunk_size := by
              rw [List.length_drop, List.length_take]; omega
            omega
          · exact hrec c h
    · rw [dif_neg hs] at hc
      exact absurd hc (List.not_mem_nil c)

theorem chunkLoop_dropLast_ne_nil (text : Text) (chunk_size : Nat) :
    ∀ n start, text.length - start ≤ n →
      ∀ c ∈ (chunkLoop text chunk_size start).dropLast, c ≠ [] := by
  intro n
  induction n with
  | zero =>
    intro start hn c hc
    unfold chunkLoop at hc
    rw [dif_neg (by omega)] at hc
    simp at hc
  | succ n ih =>
    intro start hn c hc
    unfold chunkLoop at hc
    by_cases hs : start < text.length
    · rw [dif_pos hs] at hc
      by_cases hr : text.length ≤ start + chunk_size
      · rw [if_pos hr] at hc
        simp at hc
      · rw [if_neg hr] at hc
        simp only at hc
        have hm := Nat.le_max_left (start + 1)
          (cutEnd chunk_size start ((text.drop start).take chunk_size))
        have hrec : ∀ d ∈ (chunkLoop text chunk_size
            (max (start + 1) (cutEnd chunk_size start ((text.drop start).take chunk_size)))).dropLast,
            d ≠ [] := by
          intro d hd
          exact ih _ (by omega) d hd
        by_cases hp : pyStrip ((text.take (cutEnd chunk_size start ((text.drop start).take chunk_size))).drop start) = []
        · rw [if_pos hp] at hc
          exact hrec c hc
        · rw [if_neg hp] at hc
          cases hrest : chunkLoop text chunk_size
              (max (start + 1) (cutEnd chunk_size start ((text.drop start).take chunk_size))) with
          | nil =>
            rw [hrest] at hc
            simp at hc
          | cons r rs =>
            rw [hrest] at hc
            rw [List.dropLast_cons₂] at hc
            rcases List.mem_cons.mp hc with h | h
            · subst h; exact hp
            · have h2 := hrec c
              rw [hrest] at h2
              exact h2 h
    · rw [dif_neg hs] at hc
      simp at hc

/-! ## Claim C10 -/

/-- C10: for every input text and every `chunk_size ≥ 1`, every chunk
returned by the chunker has length at most `chunk_size`: boundary
adjustment only moves the cut point earlier and the final-remainder branch
fires only when at most `chunk_size` characters remain. -/
theorem c10_chunk_length_bound (text : Text) (chunk_size : Nat)
    (h : 1 ≤ chunk_size) :
    ∀ cs, chunk_text text chunk_size = some cs → ∀ c ∈ cs, c.length ≤ chunk_size := by
  intro cs hcs c hc
  unfold chunk_text at hcs
  rw [if_neg (by omega)] at hcs
  have heq := Option.some.inj hcs
  subst heq
  exact chunkLoop_length_le text chunk_size text.length 0 (by omega) c hc

/-- Witness for C10 at `text = "ab"`, `chunk_size = 1`. -/
theorem c10_witness : 1 ≤ 1 ∧ (['a'] : Text).length ≤ 1 := by
  refine ⟨by decide, c10_chunk_length_bound ("ab".toList) 1 (by decide)
    [['a'], ['b']] ?_ ['a'] (by decide)⟩
  unfold chunk_text
  rw [if_neg (by decide)]
  congr 1
  rw [chunkLoop]
  norm_num
  rw [chunkLoop]
  norm_num
  decide

/-! ## Claim C7 -/

/-- C7 counterexample: `chunk_text " " 5` returns the singleton `[""]` —
the final-remainder branch appends `text[start:].strip()` unconditionally,
and for the all-whitespace input `" "` that stripped remainder is the empty
string, contradicting the claim that no returned chunk is empty. -/
theorem c7_counterexample : chunk_text [' '] 5 = some [[]] := by
  unfold chunk_text
  rw [if_neg (by decide)]
  congr 1
  rw [chunkLoop]
  norm_num
  decide

/-- C7 corrected: chunking raises exactly when `chunk_size = 0` (the
progress-tracker construction divides `len(text) // chunk_size` before the
loop); for every nonzero `chunk_size` it never raises and the empty input
yields an empty sequence; every chunk other than the final one is
non-empty, but the final chunk, produced unconditionally from the trailing
remainder, can be the empty string (when the remainder is all whitespace). -/
theorem c7_chunks_amended (text : Text) (chunk_size : Nat) :
    (chunk_text text chunk_size = none ↔ chunk_size = 0) ∧
    (chunk_size ≠ 0 → text = [] → chunk_text text chunk_size = some []) ∧
    ∀ cs, chunk_text text chunk_size = some cs → ∀ c ∈ cs.dropLast, c ≠ [] := by
  unfold chunk_text
  by_cases h0 : chunk_size = 0
  · rw [if_pos h0]
    refine ⟨by simp [h0], fun hne => absurd h0 hne, ?_⟩
    intro cs hcs
    exact Option.noConfusion hcs
  · rw [if_neg h0]
    refine ⟨by simp [h0], ?_, ?_⟩
    · intro _ htext
      subst htext
      congr 1
      rw [chunkLoop]
      norm_num
    · intro cs hcs c hc
      have heq := Option.some.inj hcs
      subst heq
      exact chunkLoop_dropLast_ne_nil text chunk_size text.length 0 (by omega) c hc

/-- Witness for C7: `chunk_size = 0` raises; the empty input with
`chunk_size = 5` yields an empty sequence; and for `"ab"` with
`chunk_size = 1` the first chunk `"a"`, an element of the `dropLast`, is
non-empty. -/
theorem c7_witness :
    chunk_text ([] : Text) 0 = none ∧
    chunk_text ([] : Text) 5 = some [] ∧
    (['a'] : Text) ≠ [] := by
  refine ⟨(c7_chunks_amended [] 0).1.mpr rfl,
    (c7_chunks_amended [] 5).2.1 (by decide) rfl,
    (c7_chunks_amended ("ab".toList) 1).2.2 [['a'], ['b']] ?_ ['a'] (by decide)⟩
  unfold chunk_text
  rw [if_neg (by decide)]
  congr 1
  rw [chunkLoop]
  norm_num
  rw [chunkLoop]
  norm_num
  decide

/-! ## Claim C6 -/

/-- C6 counterexample: in the window `"ab\n\ncd. ef"` of size 10 no
code-block delimiter occurs, the blank-line break sits at index 2 (at or
before the 30% mark) and the sentence boundary sits at index 6 (past 30%),
so the claimed cut point is 7; the code instead cuts at the raw offset 10,
because the blank-line `elif` captures on mere presence of `"\n\n"`, and
`chunk_text` emits the raw-cut first chunk accordingly. -/
theorem c6_counterexample :
    cutEnd 10 0 ("ab\n\ncd. efgXYZ".toList.take 10) = 10 ∧
    specCut 10 0 ("ab\n\ncd. efgXYZ".toList.take 10) = 7 ∧
    chunk_text ("ab\n\ncd. efgXYZ".toList) 10 =
      some ["ab\n\ncd. ef".toList, "gXYZ".toList] := by
  refine ⟨by decide, by decide, ?_⟩
  unfold chunk_text
  rw [if_neg (by decide)]
  congr 1
  rw [chunkLoop]
  norm_num
  rw [if_neg (by decide)]
  rw [chunkLoop]
  decide

/-- C6 corrected: at each non-final window the code cuts per `amendedCut`:
a qualifying code-block delimiter wins; otherwise, if a blank-line break is
present anywhere in the window, the cut is at that break if it lies past
30% and at the raw `chunk_size` offset otherwise — a sentence boundary past
30% is never considered in that case; only when no blank-line break is
present at all does a qualifying sentence period+space determine the cut. -/
theorem c6_cut_amended (chunk_size start : Nat) (chunk : Text) :
    cutEnd chunk_size start chunk = amendedCut chunk_size start chunk := by
  unfold cutEnd amendedCut boundaryQualifies
  cases h1 : rfindIdx cbPat chunk <;> cases h2 : rfindIdx nlPat chunk <;>
      cases h3 : rfindIdx pdPat chunk <;>
      simp [h1, h2, h3]

/-! ## Claim C2 -/

/-- C2 counterexample: `add_data(["x","y"], ["sx"])` on the empty index
raises no error at all and does not leave the index unchanged: both
embeddings are added to the vector index while only the single zipped
`("x", "sx")` record is appended. -/
theorem c2_counterexample :
    VectorDatabase.add_data (fun _ => [0]) ⟨[], []⟩
        ["x".toList, "y".toList] ["sx".toList] ≠ (⟨[], []⟩ : VectorDatabase) ∧
    (VectorDatabase.add_data (fun _ => [0]) ⟨[], []⟩
        ["x".toList, "y".toList] ["sx".toList]).embVectors.length = 2 ∧
    (VectorDatabase.add_data (fun _ => [0]) ⟨[], []⟩
        ["x".toList, "y".toList] ["sx".toList]).data
      = [⟨"x".toList, "sx".toList⟩] := by
  refine ⟨?_, rfl, rfl⟩
  intro h
  have h2 := congrArg VectorDatabase.data h
  simp [VectorDatabase.add_data] at h2

/-- C2 corrected: `add_data` with mismatched lengths does not fail and is
not a no-op: it always appends one embedding per element of `chunks` to the
vector index, and appends `min len(chunks) len(summaries)` records (the
`zip` silently truncates to the shorter argument). -/
theorem c2_add_data_amended (embedF : Text → List Rat) (db : VectorDatabase)
    (chunks summaries : List Text) :
    (db.add_data embedF chunks summaries).embVectors.length
        = db.embVectors.length + chunks.length ∧
    (db.add_data embedF chunks summaries).data.length
        = db.data.length + min chunks.length summaries.length := by
  unfold VectorDatabase.add_data
  simp [List.length_zip]

/-! ## Claim C8 -/

/-- C8 counterexample: after a single failed `record_request` consuming 5
tokens, the live metrics hold `failed_requests = 1` and
`total_tokens_used = 5`, but `to_dict` serializes neither counter, so the
round-tripped instance has both attributes absent — the claim that every
counter is reproduced exactly fails. -/
theorem c8_counterexample :
    (Metrics.from_dict
        (Metrics.to_dict (record_request (Metrics.init 0 0 0 0 0) false 1 5) 10) 20).total_tokens_used
      = none ∧
    (record_request (Metrics.init 0 0 0 0 0) false 1 5).total_tokens_used = some 5 ∧
    (Metrics.from_dict
        (Metrics.to_dict (record_request (Metrics.init 0 0 0 0 0) false 1 5) 10) 20).failed_requests
      = none ∧
    (record_request (Metrics.init 0 0 0 0 0) false 1 5).failed_requests = some 1 :=
  ⟨rfl, rfl, rfl, rfl⟩

/-- C8 corrected: the round trip `Metrics.from_dict (metrics.to_dict())`
reproduces `total_requests`, `successful_requests` and
`average_response_time` exactly, and uptime is monotonically non-decreasing
across the round trip (serialization happening no earlier than
`start_time`); but the dynamically attached `failed_requests` and
`total_tokens_used` counters are not serialized by `to_dict` and are absent
after the round trip. -/
theorem c8_roundtrip_amended (m : Metrics) (now now2 : Rat)
    (h : m.start_time ≤ now) :
    (Metrics.from_dict (Metrics.to_dict m now) now2).total_requests = m.total_requests ∧
    (Metrics.from_dict (Metrics.to_dict m now) now2).successful_requests = m.successful_requests ∧
    (Metrics.from_dict (Metrics.to_dict m now) now2).average_response_time = m.average_response_time ∧
    m.uptime ≤ (Metrics.from_dict (Metrics.to_dict m now) now2).uptime ∧
    (Metrics.from_dict (Metrics.to_dict m now) now2).failed_requests = none ∧
    (Metrics.from_dict (Metrics.to_dict m now) now2).total_tokens_used = none := by
  refine ⟨rfl, rfl, rfl, ?_, rfl, rfl⟩
  unfold Metrics.from_dict Metrics.to_dict Metrics.init
  simp only
  linarith

/-- Witness for C8 at the concrete metrics state `⟨1, 1, 2, 3, 4⟩`
serialized at time 7 and restored at time 9. -/
theorem c8_witness :
    (Metrics.init 1 1 2 3 4).start_time ≤ 7 ∧
    (Metrics.from_dict (Metrics.to_dict (Metrics.init 1 1 2 3 4) 7) 9).total_requests = 1 :=
  ⟨by norm_num [Metrics.init],
    (c8_roundtrip_amended (Metrics.init 1 1 2 3 4) 7 9 (by norm_num [Metrics.init])).1⟩

/-! ## Claim C9 -/

theorem dropWhile_eq_self_of_all {α : Type} (p : α → Bool) (l : List α)
    (h : ∀ e ∈ l, ¬ p e = true) : l.dropWhile p = l := by
  cases l with
  | nil => rfl
  | cons a l =>
    have ha := h a (by simp)
    simp [List.dropWhile, ha]

theorem can_proceed_no_evict (R : Nat) (q : List Rat) (now : Rat)
    (h : ∀ e ∈ q, ¬ e < now - 60) :
    RateLimiter.can_proceed ⟨R, q⟩ now =
      if q.length < R then (true, ⟨R, q ++ [now]⟩) else (false, ⟨R, q⟩) := by
  unfold RateLimiter.can_proceed
  rw [dropWhile_eq_self_of_all _ _ (by
    intro e he
    simpa using h e he)]

theorem runAll_admits (R : Nat) (pre ts : List Rat)
    (hlen : pre.length + ts.length ≤ R)
    (hwin : ∀ t ∈ ts, ∀ e ∈ pre ++ ts, ¬ e < t - 60) :
    RateLimiter.runAll ⟨R, pre⟩ ts = (List.replicate ts.length true, ⟨R, pre ++ ts⟩) := by
  induction ts generalizing pre with
  | nil => simp [RateLimiter.runAll]
  | cons t ts ih =>
    have hstep : RateLimiter.can_proceed ⟨R, pre⟩ t = (true, ⟨R, pre ++ [t]⟩) := by
      rw [can_proceed_no_evict R pre t (by
        intro e he
        exact hwin t (by simp) e (List.mem_append_left _ he))]
      rw [if_pos (by simp at hlen; omega)]
    have hrec := ih (pre ++ [t])
      (by simp at hlen ⊢; omega)
      (by
        intro u hu e he
        refine hwin u (by simp [hu]) e ?_
        rw [List.append_assoc] at he
        simpa using he)
    unfold RateLimiter.runAll
    rw [hstep]
    simp only
    rw [hrec]
    simp [List.replicate_succ, List.append_assoc]

/-- C9: starting from a fresh `RateLimiter` with limit `R ≥ 1` and calling
`can_proceed` at the `R` nondecreasing times `t0 :: rest`, all within less
than 60 seconds of `t0`, every call returns true; a further call at `tb`
still within that span returns false and leaves the queue unchanged; and a
call at a time `tl` more than 60 seconds past `t0` returns true again. -/
theorem c9_rate_limiter (R : Nat) (hR : 1 ≤ R) (t0 : Rat) (rest : List Rat)
    (tb tl : Rat)
    (hlen : (t0 :: rest).length = R)
    (hmono : List.Sorted (· ≤ ·) (t0 :: (rest ++ [tb])))
    (hspan : ∀ t ∈ t0 :: (rest ++ [tb]), t - t0 < 60)
    (hlate : t0 + 60 < tl) :
    ((RateLimiter.init R).runAll (t0 :: rest)).1 = List.replicate R true ∧
    (((RateLimiter.init R).runAll (t0 :: rest)).2.can_proceed tb).1 = false ∧
    (((RateLimiter.init R).runAll (t0 :: rest)).2.can_proceed tb).2
      = ((RateLimiter.init R).runAll (t0 :: rest)).2 ∧
    ((((RateLimiter.init R).runAll (t0 :: rest)).2.can_proceed tb).2.can_proceed tl).1
      = true := by
  have hbase : ∀ e ∈ t0 :: rest, t0 ≤ e := by
    intro e he
    rcases List.mem_cons.mp he with h | h
    · exact le_of_eq h.symm
    · exact (List.sorted_cons.mp hmono).1 e (List.mem_append_left _ h)
  have hnold : ∀ t ∈ t0 :: (rest ++ [tb]), ∀ e ∈ t0 :: rest, ¬ e < t - 60 := by
    intro t ht e he
    have h1 := hspan t ht
    have h2 := hbase e he
    intro hlt
    linarith
  have hrun : RateLimiter.runAll ⟨R, []⟩ (t0 :: rest)
      = (List.replicate (t0 :: rest).length true, ⟨R, [] ++ (t0 :: rest)⟩) := by
    apply runAll_admits
    · simp at hlen ⊢; omega
    · intro t ht e he
      refine hnold t ?_ e (by simpa using he)
      rcases List.mem_cons.mp ht with h | h
      · simp [h]
      · simp [h]
  have hrun' : RateLimiter.runAll (RateLimiter.init R) (t0 :: rest)
      = (List.replicate R true, ⟨R, t0 :: rest⟩) := by
    unfold RateLimiter.init
    rw [hrun, hlen]
    simp
  have hdeny : RateLimiter.can_proceed ⟨R, t0 :: rest⟩ tb = (false, ⟨R, t0 :: rest⟩) := by
    rw [can_proceed_no_evict R (t0 :: rest) tb (by
      intro e he
      exact hnold tb (by simp) e he)]
    rw [if_neg (by simp at hlen ⊢; omega)]
  refine ⟨?_, ?_, ?_, ?_⟩
  · rw [hrun']
  · rw [hrun', hdeny]
  · rw [hrun', hdeny]
  · rw [hrun', hdeny]
    unfold RateLimiter.can_proceed
    simp only
    have hdrop : (t0 :: rest).dropWhile (fun t => decide (t < tl - 60))
        = rest.dropWhile (fun t => decide (t < tl - 60)) := by
      simp only [List.dropWhile]
      rw [decide_eq_true (by linarith : t0 < tl - 60)]
    rw [hdrop]
    have hlelen := (@List.dropWhile_sublist Rat rest (fun t => decide (t < tl - 60))).length_le
    rw [if_pos (by simp at hlen; omega)]

/-- Witness for C9 at `R = 2`, call times `0, 10`, blocked call at `20`,
admitted call at `75`. -/
theorem c9_witness :
    ((RateLimiter.init 2).runAll [(0 : Rat), 10]).1 = List.replicate 2 true ∧
    (((RateLimiter.init 2).runAll [(0 : Rat), 10]).2.can_proceed 20).1 = false := by
  have h := c9_rate_limiter 2 (by norm_num) 0 [10] 20 75 (by simp)
    (by
      simp [List.sorted_cons]
      norm_num)
    (by
      intro t ht
      fin_cases ht <;> norm_num)
    (by norm_num)
  exact ⟨h.1, h.2.1⟩

/-! ## Claim C1 -/

/-- C1: the code evaluated at the claim's `N = 0` case — for every
embedding provider and query, `search` on the empty index returns `none`
(the faiss result is `top_k` copies of `-1`, the `i < len(data)` filter
keeps them because `-1 < 0`, and the Python lookup `data[-1]` on the empty
record list raises IndexError), instead of the claimed empty sequence. -/
theorem c1_search_empty_index_errors (embedF : Text → List Rat) (q : Text) :
    VectorDatabase.search embedF ⟨[], []⟩ q 5 = none := by
  unfold VectorDatabase.search faissSearch
  simp only [List.mergeSort_nil, List.map_nil, List.length_nil, List.range_zero,
    List.take_nil, List.nil_append, Nat.sub_zero]
  decide

/-! ## Claim C5 -/

theorem from_to_dict (db : VectorDatabase)
    (hw : db.embVectors.length = db.data.length) :
    VectorDatabase.from_dict (VectorDatabase.to_dict db) = db := by
  unfold VectorDatabase.from_dict VectorDatabase.to_dict
  cases db with
  | mk vecs data =>
    simp only at hw ⊢
    congr 1
    · rw [List.map_map]
      exact List.map_fst_zip vecs data (le_of_eq hw)
    · rw [List.map_map]
      exact List.map_snd_zip vecs data (by omega)

/-- C5: the serialization round trip
`VectorDatabase.from_dict (db.to_dict())` reproduces the index exactly
(under the structural invariant that the faiss index and the record list
have equal lengths), so its `search` results agree with the original's for
every embedding provider, query and `top_k` — and `from_dict` takes no
embedding provider at all, so the round trip cannot re-invoke one. -/
theorem c5_roundtrip_search (embedF : Text → List Rat) (db : VectorDatabase)
    (hw : db.embVectors.length = db.data.length) (q : Text) (k : Nat) :
    VectorDatabase.search embedF (VectorDatabase.from_dict (VectorDatabase.to_dict db)) q k
      = VectorDatabase.search embedF db q k := by
  rw [from_to_dict db hw]

/-- Witness for C5 at a one-record index. -/
theorem c5_witness :
    ([[(1 : Rat)]] : List (List Rat)).length = [(⟨['a'], ['b']⟩ : Record)].length ∧
    VectorDatabase.search (fun _ => [0])
        (VectorDatabase.from_dict (VectorDatabase.to_dict ⟨[[1]], [⟨['a'], ['b']⟩]⟩)) [] 1
      = VectorDatabase.search (fun _ => [0]) ⟨[[1]], [⟨['a'], ['b']⟩]⟩ [] 1 :=
  ⟨rfl, c5_roundtrip_search (fun _ => [0]) ⟨[[1]], [⟨['a'], ['b']⟩]⟩ rfl [] 1⟩

/-! ## Claim C4 -/

/-- C4 counterexample: importing the snapshot `{"metrics": {7, 3, 0, 0}}`
(missing the `"vector_database"` key) into a fresh session raises an
uncaught `KeyError` — no `StateImportError` exists anywhere in the code —
and the session metrics have already been replaced by the snapshot's
values by the time the failure surfaces: `total_requests` reads 7 where the
pre-import state had 0.  The claim that the state is left unchanged fails. -/
theorem c4_counterexample :
    (import_state ⟨some ⟨7, 3, 0, 0⟩, none⟩ 0
        ⟨[], ⟨[], []⟩, Metrics.init 0 0 0 0 0, RateLimiter.init 60⟩).1
      = Except.error "KeyError: vector_database".toList ∧
    (import_state ⟨some ⟨7, 3, 0, 0⟩, none⟩ 0
        ⟨[], ⟨[], []⟩, Metrics.init 0 0 0 0 0, RateLimiter.init 60⟩).2.metrics.total_requests
      = 7 ∧
    (Metrics.init 0 0 0 0 0).total_requests = 0 :=
  ⟨rfl, rfl, rfl⟩

/-- C4 corrected: for every snapshot missing the `"vector_database"` key,
`import_state` fails by raising an uncaught `KeyError` (there is no
structural validation and no `StateImportError`); the vector index is left
unchanged, and the whole state is unchanged only when the snapshot also
lacks `"metrics"` — when a `"metrics"` entry is present, the session
metrics have already been replaced by the snapshot's values when the
failure is raised (a partial import). -/
theorem c4_import_missing_vdb_amended (snap : Snapshot) (now : Rat)
    (st : ModelState) (h : snap.vector_database = none) :
    (∃ msg, (import_state snap now st).1 = Except.error msg) ∧
    (import_state snap now st).2.database = st.database ∧
    (snap.metrics = none → (import_state snap now st).2 = st) ∧
    (∀ d, snap.metrics = some d →
      (import_state snap now st).2.metrics = Metrics.from_dict d now) := by
  unfold import_state
  cases hm : snap.metrics with
  | none => simp [hm]
  | some d => simp [hm, h]

/-- Witness for C4 at the concrete snapshot `{"metrics": {7, 3, 0, 0}}`. -/
theorem c4_witness :
    (⟨some ⟨7, 3, 0, 0⟩, none⟩ : Snapshot).vector_database = none ∧
    (import_state ⟨some ⟨7, 3, 0, 0⟩, none⟩ 0
        ⟨[], ⟨[], []⟩, Metrics.init 0 0 0 0 0, RateLimiter.init 60⟩).2.database
      = (⟨[], []⟩ : VectorDatabase) :=
  ⟨rfl, (c4_import_missing_vdb_amended ⟨some ⟨7, 3, 0, 0⟩, none⟩ 0
    ⟨[], ⟨[], []⟩, Metrics.init 0 0 0 0 0, RateLimiter.init 60⟩ rfl).2.1⟩

/-! ## Claim C3 -/

theorem record_request_false (m : Metrics) (rt : Rat) (tk : Nat) :
    (record_request m false rt tk).total_requests = m.total_requests + 1 ∧
    (record_request m false rt tk).failed_requests
      = some (m.failed_requests.getD 0 + 1) ∧
    (record_request m false rt tk).successful_requests = m.successful_requests := by
  unfold record_request
  simp

/-- C3 counterexample: a content-validation rejection (fetched markdown
`"hi"` is shorter than 10 characters) makes `extract_content_from_url`
return `(false, reason)` — but the session context buffer now holds the
fetched markdown `"hi"`, not its pre-call value `"old"`: the assignment
`self.context = result.markdown` happens before validation, so the claim
that the prior session state is left untouched fails. -/
theorem c3_counterexample :
    ((extract_content_from_url (fun _ => [0]) (fun t => t)
        ⟨"http".toList, "x.com".toList⟩ (some "hi".toList) 0 1
        ⟨"old".toList, ⟨[], []⟩, Metrics.init 0 0 0 0 0, RateLimiter.init 60⟩).1).1
      = false ∧
    (extract_content_from_url (fun _ => [0]) (fun t => t)
        ⟨"http".toList, "x.com".toList⟩ (some "hi".toList) 0 1
        ⟨"old".toList, ⟨[], []⟩, Metrics.init 0 0 0 0 0, RateLimiter.init 60⟩).2.context
      = "hi".toList ∧
    "hi".toList ≠ "old".toList :=
  ⟨rfl, rfl, by decide⟩

/-- C3 corrected: whenever `extract_content_from_url` fails it returns
`(false, reason)` with no exception escaping, records a failed-metrics
event (total and failed counters incremented, successes unchanged), and
leaves the vector index untouched; the context buffer is also untouched on
the invalid-URL, rate-limit and fetch-error paths, but whenever the fetch
succeeded (in particular on the content-validation-rejection path, the only
failing path reachable after a successful fetch) the context buffer has
already been overwritten with the fetched markdown. -/
theorem c3_extract_failure_amended (embedF : Text → List Rat)
    (summarize : Text → Text) (url : ParsedUrl) (fetched : Option Text)
    (now rt : Rat) (st : ModelState)
    (h : ((extract_content_from_url embedF summarize url fetched now rt st).1).1 = false) :
    (extract_content_from_url embedF summarize url fetched now rt st).2.database
      = st.database ∧
    (extract_content_from_url embedF summarize url fetched now rt st).2.metrics.total_requests
      = st.metrics.total_requests + 1 ∧
    (extract_content_from_url embedF summarize url fetched now rt st).2.metrics.failed_requests
      = some (st.metrics.failed_requests.getD 0 + 1) ∧
    (extract_content_from_url embedF summarize url fetched now rt st).2.metrics.successful_requests
      = st.metrics.successful_requests ∧
    (is_valid_url url = false →
      (extract_content_from_url embedF summarize url fetched now rt st).2.context = st.context) ∧
    ((st.rate_limiter.can_proceed now).1 = false →
      (extract_content_from_url embedF summarize url fetched now rt st).2.context = st.context) ∧
    (fetched = none →
      (extract_content_from_url embedF summarize url fetched now rt st).2.context = st.context) ∧
    (∀ md, fetched = some md → is_valid_url url = true →
      (st.rate_limiter.can_proceed now).1 = true →
      (extract_content_from_url embedF summarize url fetched now rt st).2.context = md) := by
  have hrr := record_request_false st.metrics rt 0
  unfold extract_content_from_url at h ⊢
  by_cases h1 : is_valid_url url
  · simp only [h1, Bool.not_true, Bool.false_eq_true, if_false] at h ⊢
    by_cases h2 : (st.rate_limiter.can_proceed now).1
    · simp only [h2, Bool.not_true, Bool.false_eq_true, if_false] at h ⊢
      cases hf : fetched with
      | none =>
        simp only [hf] at h ⊢
        refine ⟨rfl, hrr.1, hrr.2.1, hrr.2.2, ?_, ?_, fun _ => rfl, ?_⟩
        · intro hbad
          exact Bool.noConfusion hbad
        · intro hbad
          exact Bool.noConfusion hbad
        · intro md hmd
          exact Option.noConfusion hmd
      | some md =>
        simp only [hf] at h ⊢
        by_cases h3 : (validate_content md).valid
        · simp only [h3, Bool.not_true, Bool.false_eq_true, if_false] at h
          exact Bool.noConfusion h
        · simp only [h3, Bool.not_false, if_true] at h ⊢
          refine ⟨rfl, hrr.1, hrr.2.1, hrr.2.2, ?_, ?_, ?_, ?_⟩
          · intro hbad
            exact Bool.noConfusion hbad
          · intro hbad
            exact Bool.noConfusion hbad
          · intro hbad
            exact Option.noConfusion hbad
          · intro md2 hmd2 hval hrate
            have hmm := Option.some.inj hmd2
            subst hmm
            rfl
    · simp only [Bool.not_eq_true] at h2
      simp only [h2, Bool.not_false, if_true] at h ⊢
      refine ⟨rfl, hrr.1, hrr.2.1, hrr.2.2, ?_, fun _ => rfl, fun _ => rfl, ?_⟩
      · intro hbad
        exact Bool.noConfusion hbad
      · intro md hmd hval hrate
        exact absurd hrate (by simp [h2])
  · simp only [Bool.not_eq_true] at h1
    simp only [h1, Bool.not_false, if_true] at h ⊢
    refine ⟨rfl, hrr.1, hrr.2.1, hrr.2.2, fun _ => rfl, fun _ => rfl, fun _ => rfl, ?_⟩
    intro md hmd hval hrate
    exact absurd hval (by simp [h1])

/-- Witness for C3 at two concrete runs: a content-validation rejection
(fetched markdown `"no"`) whose false result leaves the context overwritten
to `"no"` and the index empty, and an invalid-URL failure (empty scheme)
whose false result leaves the context at its prior value `"keep"`. -/
theorem c3_witness :
    ((extract_content_from_url (fun _ => [0]) (fun t => t)
        ⟨"ftp".toList, "y.org".toList⟩ (some "no".toList) 0 1
        ⟨"prior".toList, ⟨[], []⟩, Metrics.init 0 0 0 0 0, RateLimiter.init 60⟩).1).1
      = false ∧
    (extract_content_from_url (fun _ => [0]) (fun t => t)
        ⟨"ftp".toList, "y.org".toList⟩ (some "no".toList) 0 1
        ⟨"prior".toList, ⟨[], []⟩, Metrics.init 0 0 0 0 0, RateLimiter.init 60⟩).2.context
      = "no".toList ∧
    (extract_content_from_url (fun _ => [0]) (fun t => t)
        ⟨"ftp".toList, "y.org".toList⟩ (some "no".toList) 0 1
        ⟨"prior".toList, ⟨[], []⟩, Metrics.init 0 0 0 0 0, RateLimiter.init 60⟩).2.database
      = (⟨[], []⟩ : VectorDatabase) ∧
    ((extract_content_from_url (fun _ => [0]) (fun t => t)
        ⟨[], "z.net".toList⟩ (some "hello".toList) 0 1
        ⟨"keep".toList, ⟨[], []⟩, Metrics.init 0 0 0 0 0, RateLimiter.init 60⟩).1).1
      = false ∧
    (extract_content_from_url (fun _ => [0]) (fun t => t)
        ⟨[], "z.net".toList⟩ (some "hello".toList) 0 1
        ⟨"keep".toList, ⟨[], []⟩, Metrics.init 0 0 0 0 0, RateLimiter.init 60⟩).2.context
      = "keep".toList :=
  ⟨rfl,
    (c3_extract_failure_amended (fun _ => [0]) (fun t => t)
      ⟨"ftp".toList, "y.org".toList⟩ (some "no".toList) 0 1
      ⟨"prior".toList, ⟨[], []⟩, Metrics.init 0 0 0 0 0,
        RateLimiter.init 60⟩ rfl).2.2.2.2.2.2.2 "no".toList rfl rfl rfl,
    (c3_extract_failure_amended (fun _ => [0]) (fun t => t)
      ⟨"ftp".toList, "y.org".toList⟩ (some "no".toList) 0 1
      ⟨"prior".toList, ⟨[], []⟩, Metrics.init 0 0 0 0 0,
        RateLimiter.init 60⟩ rfl).1,
    rfl,
    (c3_extract_failure_amended (fun _ => [0]) (fun t => t)
      ⟨[], "z.net".toList⟩ (some "hello".toList) 0 1
      ⟨"keep".toList, ⟨[], []⟩, Metrics.init 0 0 0 0 0,
        RateLimiter.init 60⟩ rfl).2.2.2.2.1 rfl⟩
